import Mathlib

/-!
Shallow embedding of the annotation core of the PDF-TASK backend
(`src/backend/app/models/annotation.py`, `src/backend/app/schemas/annotation.py`,
`src/backend/app/services/annotation_service.py`,
`src/backend/app/api/routers/documents.py`) together with theorems that settle
the frozen claims about it.

Modelling conventions:
- Python `str` values that are inspected character by character (annotation
  content) are embedded as `List Char`; short tag strings stay `String`.
- Python `None` becomes `Option.none`; a pydantic update field that may be
  absent or explicitly null becomes `Option (Option _)` (outer layer: present
  in the payload, inner layer: the nullable value).
- The relational store is a list of rows in arrival order plus an id counter.
  Commit enforces the table's CHECK constraint and NOT NULL columns; a failed
  commit leaves the store unchanged (session rollback).
- SQLAlchemy's `onupdate=func.now()` refreshes `updated_at` exactly when an
  UPDATE statement is emitted, which happens exactly when some column value
  actually changed; this is modelled by comparing the row before and after
  applying the payload.
-/

namespace PdfTask

/-- Python `str.strip()` default whitespace characters. -/
def isPySpace (c : Char) : Bool :=
  c == ' ' || c == '\t' || c == '\n' || c == '\r' || c == '\x0b' || c == '\x0c'

/-- Python `s.strip()` on a string viewed as a character list. -/
def pyStrip (s : List Char) : List Char :=
  ((s.dropWhile isPySpace).reverse.dropWhile isPySpace).reverse

/-- Pydantic validation of `content` on the creation schemas
(`AnnotationBase`): the `Field(min_length=1, max_length=5000)` bounds run on
the raw value first, then `validate_content` rejects whitespace-only values
and returns the stripped value. -/
def validateContentCreate (s : List Char) : Option (List Char) :=
  if 1 ≤ s.length ∧ s.length ≤ 5000 then
    if pyStrip s = [] then none else some (pyStrip s)
  else none

/-- Hex color check from `validate_color`: the regex `^#[0-9A-Fa-f]{6}$`. -/
def isHexDigitChar (c : Char) : Bool :=
  ('0' ≤ c && c ≤ '9') || ('A' ≤ c && c ≤ 'F') || ('a' ≤ c && c ≤ 'f')

/-- Matches the color regex `^#[0-9A-Fa-f]{6}$` on a string. -/
def isHexColor (s : String) : Bool :=
  match s.data with
  | '#' :: rest => rest.length == 6 && rest.all isHexDigitChar
  | _ => false

/-- One stored row of the `annotations` table
(`src/backend/app/models/annotation.py`).  Nullable columns are `Option`;
`content` is kept `Option` so that the NOT NULL constraint is an explicit
commit-time check, as in the database. Timestamps are abstract clock values. -/
structure AnnotationRow where
  id : Nat
  document_id : String
  annotation_type : String
  page : Option Int
  x_percent : Option Rat
  y_percent : Option Rat
  x_pixel : Option Int
  y_pixel : Option Int
  content : Option (List Char)
  color : Option String
  created_at : Nat
  updated_at : Nat
deriving DecidableEq

/-- The SQL CHECK constraint `check_annotation_type_fields` from
`Annotation.__table_args__` (note: it does not force the other variant's
columns to be null). -/
def checkConstraintOk (r : AnnotationRow) : Prop :=
  (r.annotation_type = "document" ∧ r.page ≠ none ∧ r.x_percent ≠ none ∧ r.y_percent ≠ none) ∨
  (r.annotation_type = "image" ∧ r.x_pixel ≠ none ∧ r.y_pixel ≠ none)

instance (r : AnnotationRow) : Decidable (checkConstraintOk r) := by
  unfold checkConstraintOk; infer_instance

/-- All table-level write checks: the CHECK constraint plus the NOT NULL
constraint on `content`. -/
def rowCommitOk (r : AnnotationRow) : Prop :=
  checkConstraintOk r ∧ r.content ≠ none

instance (r : AnnotationRow) : Decidable (rowCommitOk r) := by
  unfold rowCommitOk; infer_instance

/-- The spec invariant under test: exactly the stored variant's fields are
populated and the other variant's fields are null. -/
def variantOk (r : AnnotationRow) : Prop :=
  (r.annotation_type = "document" ∧ r.page ≠ none ∧ r.x_percent ≠ none ∧ r.y_percent ≠ none ∧
    r.x_pixel = none ∧ r.y_pixel = none) ∨
  (r.annotation_type = "image" ∧ r.x_pixel ≠ none ∧ r.y_pixel ≠ none ∧
    r.page = none ∧ r.x_percent = none ∧ r.y_percent = none)

instance (r : AnnotationRow) : Decidable (variantOk r) := by
  unfold variantOk; infer_instance

/-- The relational store: rows in arrival order plus the id generator. -/
structure DB where
  rows : List AnnotationRow := []
  nextId : Nat := 0
deriving DecidableEq

/-- All stored rows satisfy the variant invariant. -/
def dbInv (db : DB) : Prop :=
  ∀ r ∈ db.rows, variantOk r

instance (db : DB) : Decidable (dbInv db) := by
  unfold dbInv; infer_instance

/-- Service-level failure kinds, matching the spec taxonomy and the HTTP
errors raised in `annotation_service.py` (422/400 validation, 404 not found,
400 variant mixing, database integrity error). -/
inductive SvcError where
  | validationError
  | notFound
  | invalidOperation
  | storageError
deriving DecidableEq

/-- Payload of `DocumentAnnotationCreate` before pydantic validation. -/
structure DocumentAnnotationCreate where
  document_id : String
  page : Int
  x_percent : Rat
  y_percent : Rat
  content : List Char
deriving DecidableEq

/-- Pydantic validation of `DocumentAnnotationCreate`: `page ≥ 1`, both
percentages in `[0, 100]`, content as in `AnnotationBase`; on success the
content is stored stripped. -/
def validateDocumentCreate (c : DocumentAnnotationCreate) : Option DocumentAnnotationCreate :=
  if 1 ≤ c.page ∧ 0 ≤ c.x_percent ∧ c.x_percent ≤ 100 ∧ 0 ≤ c.y_percent ∧ c.y_percent ≤ 100 then
    match validateContentCreate c.content with
    | some t => some { c with content := t }
    | none => none
  else none

/-- Payload of `ImageAnnotationCreate` before pydantic validation. -/
structure ImageAnnotationCreate where
  document_id : String
  x_pixel : Int
  y_pixel : Int
  color : Option String
  content : List Char
deriving DecidableEq

/-- Pydantic validation of `ImageAnnotationCreate`: pixels `≥ 0`, optional
color against the hex regex, content as in `AnnotationBase`. -/
def validateImageCreate (c : ImageAnnotationCreate) : Option ImageAnnotationCreate :=
  if (0 ≤ c.x_pixel ∧ 0 ≤ c.y_pixel) ∧ (∀ s, c.color = some s → isHexColor s = true) then
    match validateContentCreate c.content with
    | some t => some { c with content := t }
    | none => none
  else none

/-- The row built by `Annotation(**annotation_dict)` from a validated
document-variant payload: the image columns and `color` stay at their column
default NULL, both timestamps are set at creation. -/
def docRowOf (now : Nat) (db : DB) (v : DocumentAnnotationCreate) : AnnotationRow :=
  { id := db.nextId, document_id := v.document_id, annotation_type := "document",
    page := some v.page, x_percent := some v.x_percent, y_percent := some v.y_percent,
    x_pixel := none, y_pixel := none, content := some v.content, color := none,
    created_at := now, updated_at := now }

/-- The row built from a validated image-variant payload: the document columns
stay at their column default NULL. -/
def imgRowOf (now : Nat) (db : DB) (v : ImageAnnotationCreate) : AnnotationRow :=
  { id := db.nextId, document_id := v.document_id, annotation_type := "image",
    page := none, x_percent := none, y_percent := none,
    x_pixel := some v.x_pixel, y_pixel := some v.y_pixel,
    content := some v.content, color := v.color,
    created_at := now, updated_at := now }

/-- Append a freshly committed row to the store. -/
def insertRow (db : DB) (r : AnnotationRow) : DB :=
  { rows := db.rows ++ [r], nextId := db.nextId + 1 }

/-- Endpoint pipeline for creating a document-variant annotation: pydantic
validation, then `AnnotationService.create_annotation` (row construction from
`model_dump`, insert, commit under the table constraints). -/
def createAnnotationDoc (now : Nat) (c : DocumentAnnotationCreate) (db : DB) :
    Except SvcError (AnnotationRow × DB) :=
  match validateDocumentCreate c with
  | none => .error .validationError
  | some v =>
    if rowCommitOk (docRowOf now db v) then .ok (docRowOf now db v, insertRow db (docRowOf now db v))
    else .error .storageError

/-- Endpoint pipeline for creating an image-variant annotation. -/
def createAnnotationImg (now : Nat) (c : ImageAnnotationCreate) (db : DB) :
    Except SvcError (AnnotationRow × DB) :=
  match validateImageCreate c with
  | none => .error .validationError
  | some v =>
    if rowCommitOk (imgRowOf now db v) then .ok (imgRowOf now db v, insertRow db (imgRowOf now db v))
    else .error .storageError

/-- Payload of `AnnotationUpdate`.  Outer `Option`: the field is explicitly
present in the request body (pydantic `exclude_unset=True` distinguishes unset
from set-to-null); inner `Option`: the nullable value itself. -/
structure AnnotationUpdate where
  page : Option (Option Int) := none
  x_percent : Option (Option Rat) := none
  y_percent : Option (Option Rat) := none
  x_pixel : Option (Option Int) := none
  y_pixel : Option (Option Int) := none
  color : Option (Option String) := none
  content : Option (Option (List Char)) := none
deriving DecidableEq

/-- Field bound from `AnnotationUpdate.page : Field(None, ge=1)`: checked only
on a present non-null value. -/
def updPageOk : Option (Option Int) → Prop
  | some (some p) => 1 ≤ p
  | _ => True

instance (v : Option (Option Int)) : Decidable (updPageOk v) := by
  unfold updPageOk; split <;> infer_instance

/-- Field bound for the percentage fields: `ge=0.0, le=100.0`. -/
def updPercentOk : Option (Option Rat) → Prop
  | some (some v) => 0 ≤ v ∧ v ≤ 100
  | _ => True

instance (v : Option (Option Rat)) : Decidable (updPercentOk v) := by
  unfold updPercentOk; split <;> infer_instance

/-- Field bound for the pixel fields: `ge=0`. -/
def updPixelOk : Option (Option Int) → Prop
  | some (some v) => 0 ≤ v
  | _ => True

instance (v : Option (Option Int)) : Decidable (updPixelOk v) := by
  unfold updPixelOk; split <;> infer_instance

/-- The update schema's `validate_color`: a present non-null color must match
the hex regex. -/
def updColorOk : Option (Option String) → Prop
  | some (some s) => isHexColor s = true
  | _ => True

instance (v : Option (Option String)) : Decidable (updColorOk v) := by
  unfold updColorOk; split <;> infer_instance

/-- The update schema's content rules: `Field(None, min_length=1,
max_length=5000)` on a present non-null raw value, then
`AnnotationUpdate.validate_content`, which lets `None` through and rejects
whitespace-only strings. -/
def updContentOk : Option (Option (List Char)) → Prop
  | some (some s) => (1 ≤ s.length ∧ s.length ≤ 5000) ∧ pyStrip s ≠ []
  | _ => True

instance (v : Option (Option (List Char))) : Decidable (updContentOk v) := by
  unfold updContentOk; split <;> infer_instance

/-- Pydantic validation of the whole `AnnotationUpdate` payload; on success a
present non-null content value is replaced by its stripped form
(`return v.strip() if v else v`). -/
def validateUpdate (u : AnnotationUpdate) : Option AnnotationUpdate :=
  if updPageOk u.page ∧ updPercentOk u.x_percent ∧ updPercentOk u.y_percent ∧
      updPixelOk u.x_pixel ∧ updPixelOk u.y_pixel ∧ updColorOk u.color ∧
      updContentOk u.content then
    some { u with content := u.content.map (Option.map pyStrip) }
  else none

/-- The `setattr` loop of `AnnotationService.update_annotation`: every
explicitly present field of the payload overwrites the row's column. -/
def applyUpdate (r : AnnotationRow) (u : AnnotationUpdate) : AnnotationRow :=
  { r with
    page := u.page.getD r.page,
    x_percent := u.x_percent.getD r.x_percent,
    y_percent := u.y_percent.getD r.y_percent,
    x_pixel := u.x_pixel.getD r.x_pixel,
    y_pixel := u.y_pixel.getD r.y_pixel,
    color := u.color.getD r.color,
    content := u.content.getD r.content }

/-- Endpoint pipeline of `PUT /annotations/...`: pydantic validation of the
body, then `AnnotationService.update_annotation`: look up the row, reject
other-variant fields before touching anything, apply the present fields, and
commit.  An UPDATE statement (and hence the `onupdate` refresh of
`updated_at`) is emitted only when some column value changed; commit enforces
the table constraints and on failure the transaction is rolled back. -/
def updateAnnotationOp (now : Nat) (annotation_id : Nat) (u : AnnotationUpdate) (db : DB) :
    Except SvcError (AnnotationRow × DB) :=
  match validateUpdate u with
  | none => .error .validationError
  | some v =>
    match db.rows.find? (fun r => r.id == annotation_id) with
    | none => .error .notFound
    | some row =>
      if row.annotation_type = "document" ∧ (v.x_pixel ≠ none ∨ v.y_pixel ≠ none) then
        .error .invalidOperation
      else if row.annotation_type = "image" ∧
          (v.page ≠ none ∨ v.x_percent ≠ none ∨ v.y_percent ≠ none) then
        .error .invalidOperation
      else if applyUpdate row v = row then .ok (row, db)
      else if rowCommitOk { applyUpdate row v with updated_at := now } then
        .ok ({ applyUpdate row v with updated_at := now },
          { db with rows := db.rows.map (fun r =>
              if r.id == annotation_id then { applyUpdate row v with updated_at := now } else r) })
      else .error .storageError

/-- Committed store after an update request: on any error the session is
rolled back and the store is unchanged. -/
def updateAnnotationRun (now : Nat) (annotation_id : Nat) (u : AnnotationUpdate) (db : DB) : DB :=
  match updateAnnotationOp now annotation_id u db with
  | .ok (_, db2) => db2
  | .error _ => db

/-- Stable insertion of a row into a list sorted by `created_at`: the new row
goes after every strictly earlier row and before the first row that is not
strictly earlier. -/
def insertByCreatedAt (a : AnnotationRow) : List AnnotationRow → List AnnotationRow
  | [] => [a]
  | b :: l => if b.created_at < a.created_at then b :: insertByCreatedAt a l else a :: b :: l

/-- The query's `ORDER BY created_at`, modelled as a stable sort of the rows
in arrival order (the deterministic behaviour of the backing store). -/
def orderByCreatedAt : List AnnotationRow → List AnnotationRow
  | [] => []
  | a :: l => insertByCreatedAt a (orderByCreatedAt l)

/-- The optional page filter: SQL `Annotation.page == page`, which never
matches a NULL page. -/
def pageFilter (p : Option Int) (l : List AnnotationRow) : List AnnotationRow :=
  match p with
  | none => l
  | some pv => l.filter (fun r => r.page == some pv)

/-- The filtered row set of `get_annotations_by_document` in arrival order,
before ordering: scope to the document, then the type filter (a `None` or
empty-string filter is falsy in Python and skipped), then the page filter. -/
def queryFilter (document_id : String) (t : Option String) (p : Option Int) (db : DB) :
    List AnnotationRow :=
  let base := (db.rows.filter (fun r => r.document_id == document_id))
  let typed := match t with
    | some tv => if tv = "" then base else base.filter (fun r => r.annotation_type == tv)
    | none => base
  pageFilter p typed

/-- `AnnotationService.get_annotations_by_document`: a truthy type filter must
be one of the two valid values, otherwise 400; then filter and order. -/
def getAnnotationsByDocument (document_id : String) (t : Option String) (p : Option Int)
    (db : DB) : Except SvcError (List AnnotationRow) :=
  match t with
  | some tv =>
    if tv ≠ "" ∧ tv ≠ "document" ∧ tv ≠ "image" then .error .validationError
    else .ok (orderByCreatedAt (queryFilter document_id t p db))
  | none => .ok (orderByCreatedAt (queryFilter document_id none p db))

/-- One stored document row.
Modelled from the spec: the `Document` model and `DocumentService`
(`app/models/document.py`, `app/services/document_service.py`) are not under
`src/`; per spec section 3 a document has an identifier, filename metadata, a
storage path and an optional converted-file path. -/
structure DocumentRow where
  id : Nat
  filename : String
  original_filename : String
  mime_type : String
  file_size : Nat
  file_path : String
  converted_path : Option String
deriving DecidableEq

/-- The document store.
Modelled from the spec: a relational store reachable via create/read/update
with transactional commit (spec section 2). -/
structure DocDB where
  docs : List DocumentRow := []
  nextId : Nat := 0
deriving DecidableEq

/-- The uploaded file as seen by `upload_document`. -/
structure UploadFileIn where
  filename : String
  content_type : String
  size : Nat
deriving DecidableEq

/-- `settings.allowed_file_types` from `app/core/config.py`. -/
def allowedFileTypes : List String :=
  ["application/pdf", "application/msword",
   "application/vnd.openxmlformats-officedocument.wordprocessingml.document",
   "image/png", "image/jpeg", "image/jpg"]

/-- `settings.max_file_size` from `app/core/config.py` (10 GB). -/
def maxFileSize : Nat := 10 * 1024 * 1024 * 1024

/-- The MIME types that trigger conversion in `upload_document`. -/
def officeTypes : List String :=
  ["application/msword",
   "application/vnd.openxmlformats-officedocument.wordprocessingml.document"]

/-- Upload failure kinds of `upload_document` (400 invalid type, 413 too
large, 400 empty filename, and the generic 500 UPLOAD_FAILED path taken when
the `DocumentCreate` schema validation raises inside the handler's outer
`try` — the saved file is cleaned up and no record is stored). -/
inductive UploadError where
  | invalidFileType
  | fileTooLarge
  | invalidFilename
  | uploadFailed
deriving DecidableEq

/-- The document record built at upload time, before any conversion.
Modelled from the spec: `DocumentService.create_document` (not under `src/`)
persists a record with filename metadata, a storage path and no converted
path. -/
def uploadDocOf (file : UploadFileIn) (db : DocDB) : DocumentRow :=
  { id := db.nextId, filename := file.filename, original_filename := file.filename,
    mime_type := file.content_type, file_size := file.size,
    file_path := file.filename, converted_path := none }

/-- The pydantic `DocumentCreate` schema from `app/schemas/document.py`, run
by `upload_document` on the record it is about to persist: `filename` and
`original_filename` have length in [1, 255], `validate_mime_type` restricts
the MIME type to the allowed list, and `file_size` must satisfy the `gt=0`
Field bound and `validate_file_size`'s 100 MB cap. -/
def docCreateSchemaOk (d : DocumentRow) : Prop :=
  (1 ≤ d.filename.length ∧ d.filename.length ≤ 255) ∧
  (1 ≤ d.original_filename.length ∧ d.original_filename.length ≤ 255) ∧
  d.mime_type ∈ allowedFileTypes ∧
  0 < d.file_size ∧ d.file_size ≤ 100 * 1024 * 1024

instance (d : DocumentRow) : Decidable (docCreateSchemaOk d) := by
  unfold docCreateSchemaOk; infer_instance

/-- The document store right after `document_service.create_document`. -/
def docDBAfterCreate (file : UploadFileIn) (db : DocDB) : DocDB :=
  { docs := db.docs ++ [uploadDocOf file db], nextId := db.nextId + 1 }

/-- The store after `update_converted_path` set the converted path. -/
def docDBAfterConvert (file : UploadFileIn) (db : DocDB) (path : String) : DocDB :=
  { docs := (docDBAfterCreate file db).docs.map (fun d =>
      if d.id == (uploadDocOf file db).id then { uploadDocOf file db with converted_path := some path } else d),
    nextId := db.nextId + 1 }

/-- The `POST /documents/upload` handler (`upload_document` in
`app/api/routers/documents.py`): validate type, size and filename, run the
`DocumentCreate` schema validation on the record (a schema failure hits the
outer `except Exception`, removes the saved file and fails the upload with
500, storing nothing), create the document record, and for office types run
the external conversion; a conversion failure is caught, logged and
swallowed, leaving the record with no converted path.  The conversion outcome
is passed in as an explicit `Except`-valued collaborator result. -/
def uploadDocument (file : UploadFileIn) (convResult : Except String String) (db : DocDB) :
    Except UploadError (DocumentRow × DocDB) :=
  if file.content_type ∉ allowedFileTypes then .error .invalidFileType
  else if maxFileSize < file.size then .error .fileTooLarge
  else if pyStrip file.filename.data = [] then .error .invalidFilename
  else if ¬ docCreateSchemaOk (uploadDocOf file db) then .error .uploadFailed
  else if file.content_type ∈ officeTypes then
    match convResult with
    | .ok path =>
      .ok ({ uploadDocOf file db with converted_path := some path }, docDBAfterConvert file db path)
    | .error _ => .ok (uploadDocOf file db, docDBAfterCreate file db)
  else .ok (uploadDocOf file db, docDBAfterCreate file db)

/-- Concrete document-variant row used by witnesses. -/
def sampleDocRow : AnnotationRow :=
  { id := 0, document_id := "d", annotation_type := "document",
    page := some 1, x_percent := some 50, y_percent := some 50,
    x_pixel := none, y_pixel := none, content := some ['n'], color := none,
    created_at := 0, updated_at := 0 }

/-- A store holding just `sampleDocRow`. -/
def sampleDocDB : DB := { rows := [sampleDocRow], nextId := 1 }

/-- Concrete image-variant row used by witnesses. -/
def sampleImgRow : AnnotationRow :=
  { id := 0, document_id := "d", annotation_type := "image",
    page := none, x_percent := none, y_percent := none,
    x_pixel := some 10, y_pixel := some 10, content := some ['c'], color := none,
    created_at := 0, updated_at := 0 }

/-- A store holding just `sampleImgRow`. -/
def sampleImgDB : DB := { rows := [sampleImgRow], nextId := 1 }

/-- Concrete valid document-variant creation payload. -/
def sampleDocCreate : DocumentAnnotationCreate :=
  { document_id := "d", page := 1, x_percent := 50, y_percent := 50,
    content := ['n', 'o', 't', 'e'] }

/-- Concrete valid image-variant creation payload. -/
def sampleImgCreate : ImageAnnotationCreate :=
  { document_id := "d", x_pixel := 10, y_pixel := 10, color := none, content := ['c'] }

/-- Update payload that only sets a (valid) color. -/
def c3_colorUpd : AnnotationUpdate := { color := some (some "#FF0000") }

/-- The store after creating a document annotation from scratch (used to show
what a subsequent color update does to it). -/
def c3_db1 : DB :=
  match createAnnotationDoc 0 sampleDocCreate { rows := [], nextId := 0 } with
  | .ok (_, d) => d
  | .error _ => { rows := [], nextId := 0 }

/-- Result of updating the freshly created document annotation with a color. -/
def c3_res : Except SvcError (AnnotationRow × DB) :=
  updateAnnotationOp 1 0 c3_colorUpd c3_db1

/-- The stored row with id 0 after the color update, if the update succeeded. -/
def c3_storedRow : Option AnnotationRow :=
  match c3_res with
  | .ok (_, db2) => db2.rows.find? (fun r => r.id == 0)
  | .error _ => none

/-- Raw content `"  hello  "` as a character list. -/
def c4_hello : List Char := [' ', ' ', 'h', 'e', 'l', 'l', 'o', ' ', ' ']

/-- Raw whitespace-only content. -/
def c4_ws : List Char := [' ', ' ', ' ']

/-- Raw content of length 5001 whose stripped form has length 5000. -/
def c4_bad : List Char := ' ' :: List.replicate 5000 'a'

/-- Update payload that sets nothing. -/
def c6_emptyUpd : AnnotationUpdate := {}

/-- Update payload that only sets content. -/
def c6_contentUpd : AnnotationUpdate := { content := some (some ['x']) }

/-- The row expected after applying `c6_contentUpd` to `sampleDocRow` at time 7. -/
def c6_expected : AnnotationRow :=
  { sampleDocRow with content := some ['x'], updated_at := 7 }

/-- The store expected after that update commits. -/
def c6_expectedDB : DB := { rows := [c6_expected], nextId := 1 }

/-- Update payload that only sets a pixel coordinate. -/
def c2_pixelUpd : AnnotationUpdate := { x_pixel := some (some 3) }

/-- Update payload that only sets a page. -/
def c2_pageUpd : AnnotationUpdate := { page := some (some 2) }

/-- Update payload that explicitly sets content to null. -/
def c10_nullContentUpd : AnnotationUpdate := { content := some none }

/-- Two document rows with identical `created_at`, in arrival order. -/
def c8_rowA : AnnotationRow :=
  { id := 0, document_id := "d", annotation_type := "document",
    page := some 1, x_percent := some 1, y_percent := some 1,
    x_pixel := none, y_pixel := none, content := some ['a'], color := none,
    created_at := 5, updated_at := 5 }

/-- Second row of the tie, arriving after `c8_rowA`. -/
def c8_rowB : AnnotationRow :=
  { id := 1, document_id := "d", annotation_type := "document",
    page := some 2, x_percent := some 1, y_percent := some 1,
    x_pixel := none, y_pixel := none, content := some ['b'], color := none,
    created_at := 5, updated_at := 5 }

/-- A store with a `created_at` tie. -/
def c8_db : DB := { rows := [c8_rowA, c8_rowB], nextId := 2 }

/-- Concrete office-document upload. -/
def c9_file : UploadFileIn :=
  { filename := "a.docx", content_type := "application/msword", size := 3 }

theorem pyStrip_nil : pyStrip [] = [] := rfl

theorem length_pos_of_pyStrip_ne_nil {s : List Char} (h : pyStrip s ≠ []) : 1 ≤ s.length := by
  cases s with
  | nil => exact absurd pyStrip_nil h
  | cons a l => exact Nat.succ_le_succ (Nat.zero_le _)

theorem dropWhile_isPySpace_replicate (n : Nat) :
    List.dropWhile isPySpace (List.replicate n 'a') = List.replicate n 'a' := by
  cases n with
  | zero => rfl
  | succ m =>
    rw [List.replicate_succ, List.dropWhile_cons]
    have h : isPySpace 'a' = false := by decide
    rw [h]
    simp [List.replicate_succ]

theorem pyStrip_c4_bad : pyStrip c4_bad = List.replicate 5000 'a' := by
  unfold pyStrip c4_bad
  rw [List.dropWhile_cons]
  have h : isPySpace ' ' = true := by decide
  rw [h, if_pos rfl, dropWhile_isPySpace_replicate, List.reverse_replicate,
    dropWhile_isPySpace_replicate, List.reverse_replicate]

theorem length_c4_bad : c4_bad.length = 5001 := by
  unfold c4_bad
  rw [List.length_cons, List.length_replicate]

/-- C4, corrected: the claim says acceptance is governed by the trimmed
length, but the pydantic `min_length`/`max_length` bounds run on the raw
value, before trimming.  At raw content consisting of one space followed by
5000 letters the trimmed length is 5000 (inside the claimed bounds) yet the
payload is rejected, refuting the claimed equivalence. -/
theorem c4_content_counterexample :
    ¬ ((validateContentCreate c4_bad).isSome = true ↔
        1 ≤ (pyStrip c4_bad).length ∧ (pyStrip c4_bad).length ≤ 5000) := by
  intro h
  have hval : validateContentCreate c4_bad = none := by
    unfold validateContentCreate
    rw [if_neg]
    rw [length_c4_bad]
    omega
  have hlen : (pyStrip c4_bad).length = 5000 := by
    rw [pyStrip_c4_bad, List.length_replicate]
  have hmp := h.mpr ⟨by omega, by omega⟩
  rw [hval] at hmp
  exact Bool.noConfusion hmp

/-- C4, amended: a create-time content value is accepted exactly when the raw
value has length at most 5000 and its stripped form is non-empty (the length
bounds are checked before trimming); on acceptance the stripped value is what
is stored.  In particular the raw content with spaces around the word hello
is stored stripped, and whitespace-only content is rejected. -/
theorem c4_content_trim_amended :
    (∀ s : List Char,
      ((validateContentCreate s).isSome = true ↔ s.length ≤ 5000 ∧ pyStrip s ≠ []) ∧
      (∀ v, validateContentCreate s = some v → v = pyStrip s)) ∧
    validateContentCreate c4_hello = some ['h', 'e', 'l', 'l', 'o'] ∧
    validateContentCreate c4_ws = none := by
  refine ⟨fun s => ⟨?_, ?_⟩, by decide, by decide⟩
  · unfold validateContentCreate
    by_cases h1 : 1 ≤ s.length ∧ s.length ≤ 5000
    · rw [if_pos h1]
      by_cases h2 : pyStrip s = []
      · rw [if_pos h2]
        simp [h2]
      · rw [if_neg h2]
        simp [h2, h1.2]
    · rw [if_neg h1]
      simp only [Option.isSome_none, Bool.false_eq_true, false_iff, not_and]
      intro hle hne
      exact h1 ⟨length_pos_of_pyStrip_ne_nil hne, hle⟩
  · intro v hv
    unfold validateContentCreate at hv
    by_cases h1 : 1 ≤ s.length ∧ s.length ≤ 5000
    · rw [if_pos h1] at hv
      by_cases h2 : pyStrip s = []
      · rw [if_pos h2] at hv
        exact Option.noConfusion hv
      · rw [if_neg h2] at hv
        exact (Option.some.inj hv).symm
    · rw [if_neg h1] at hv
      exact Option.noConfusion hv

/-- Witness for C4's amended theorem at concrete inputs. -/
theorem c4_content_trim_amended_ev :
    ((validateContentCreate c4_hello).isSome = true ↔
      c4_hello.length ≤ 5000 ∧ pyStrip c4_hello ≠ []) ∧
    ['h', 'e', 'l', 'l', 'o'] = pyStrip c4_hello :=
  ⟨(c4_content_trim_amended.1 c4_hello).1,
   (c4_content_trim_amended.1 c4_hello).2 ['h', 'e', 'l', 'l', 'o'] (by decide)⟩

theorem rowCommitOk_docRowOf (now : Nat) (db : DB) (v : DocumentAnnotationCreate) :
    rowCommitOk (docRowOf now db v) := by
  constructor
  · exact Or.inl ⟨rfl, by simp [docRowOf], by simp [docRowOf], by simp [docRowOf]⟩
  · simp [docRowOf]

theorem rowCommitOk_imgRowOf (now : Nat) (db : DB) (v : ImageAnnotationCreate) :
    rowCommitOk (imgRowOf now db v) := by
  constructor
  · exact Or.inr ⟨rfl, by simp [imgRowOf], by simp [imgRowOf]⟩
  · simp [imgRowOf]

theorem createAnnotationDoc_eq {c v : DocumentAnnotationCreate} (now : Nat) (db : DB)
    (h : validateDocumentCreate c = some v) :
    createAnnotationDoc now c db = .ok (docRowOf now db v, insertRow db (docRowOf now db v)) := by
  simp only [createAnnotationDoc, h]
  rw [if_pos (rowCommitOk_docRowOf now db v)]

theorem createAnnotationImg_eq {c v : ImageAnnotationCreate} (now : Nat) (db : DB)
    (h : validateImageCreate c = some v) :
    createAnnotationImg now c db = .ok (imgRowOf now db v, insertRow db (imgRowOf now db v)) := by
  simp only [createAnnotationImg, h]
  rw [if_pos (rowCommitOk_imgRowOf now db v)]

/-- C5: every schema-valid document-variant creation succeeds and stores a row
whose pixel and color columns are null; every schema-valid image-variant
creation succeeds and stores a row whose page and percentage columns are
null. -/
theorem c5_create_null_other_variant (now : Nat) (db : DB) :
    (∀ c v, validateDocumentCreate c = some v →
      ∃ r db2, createAnnotationDoc now c db = .ok (r, db2) ∧
        r.x_pixel = none ∧ r.y_pixel = none ∧ r.color = none ∧ r ∈ db2.rows) ∧
    (∀ c v, validateImageCreate c = some v →
      ∃ r db2, createAnnotationImg now c db = .ok (r, db2) ∧
        r.page = none ∧ r.x_percent = none ∧ r.y_percent = none ∧ r ∈ db2.rows) := by
  constructor
  · intro c v h
    refine ⟨docRowOf now db v, insertRow db (docRowOf now db v),
      createAnnotationDoc_eq now db h, rfl, rfl, rfl, ?_⟩
    simp [insertRow]
  · intro c v h
    refine ⟨imgRowOf now db v, insertRow db (imgRowOf now db v),
      createAnnotationImg_eq now db h, rfl, rfl, rfl, ?_⟩
    simp [insertRow]

/-- Witness for C5 at concrete valid payloads. -/
theorem c5_create_null_other_variant_ev :
    (∃ r db2, createAnnotationDoc 0 sampleDocCreate { rows := [], nextId := 0 } = .ok (r, db2) ∧
      r.x_pixel = none ∧ r.y_pixel = none ∧ r.color = none ∧ r ∈ db2.rows) ∧
    (∃ r db2, createAnnotationImg 0 sampleImgCreate { rows := [], nextId := 0 } = .ok (r, db2) ∧
      r.page = none ∧ r.x_percent = none ∧ r.y_percent = none ∧ r ∈ db2.rows) :=
  ⟨(c5_create_null_other_variant 0 { rows := [], nextId := 0 }).1 sampleDocCreate sampleDocCreate (by rfl),
   (c5_create_null_other_variant 0 { rows := [], nextId := 0 }).2 sampleImgCreate sampleImgCreate (by rfl)⟩

/-- C3, counterexample: creating a document annotation and then updating it
with only a color succeeds, and the stored row is a document-type row with a
non-null color — the update path never rejects `color` for document rows. -/
theorem c3_doc_color_counterexample :
    c3_storedRow.map (fun r => (r.annotation_type, r.color)) =
      some ("document", some "#FF0000") := by rfl

/-- C3, amended: a document-variant creation always stores a null color, but
the color is not protected on the update path: an update carrying only a
color is applied to a document-type row, so a document-type row with non-null
color is reachable. -/
theorem c3_doc_color_amended :
    (∀ now c v db r db2, validateDocumentCreate c = some v →
      createAnnotationDoc now c db = .ok (r, db2) → r.color = none) ∧
    c3_storedRow.map (fun r => (r.annotation_type, r.color)) =
      some ("document", some "#FF0000") := by
  constructor
  · intro now c v db r db2 hval hok
    rw [createAnnotationDoc_eq now db hval] at hok
    simp only [Except.ok.injEq, Prod.mk.injEq] at hok
    exact hok.1 ▸ rfl
  · rfl

/-- Witness for C3's amended theorem. -/
theorem c3_doc_color_amended_ev :
    (docRowOf 0 { rows := [], nextId := 0 } sampleDocCreate).color = none ∧
    c3_storedRow.map (fun r => (r.annotation_type, r.color)) =
      some ("document", some "#FF0000") :=
  ⟨c3_doc_color_amended.1 0 sampleDocCreate sampleDocCreate { rows := [], nextId := 0 }
      (docRowOf 0 { rows := [], nextId := 0 } sampleDocCreate)
      (insertRow { rows := [], nextId := 0 } (docRowOf 0 { rows := [], nextId := 0 } sampleDocCreate))
      (by rfl) (by rfl),
   c3_doc_color_amended.2⟩

/-- C7, counterexample: the service guards the type filter with Python
truthiness (`if annotation_type:`), so a supplied empty-string filter — which
is not one of the two valid values — is silently treated as no filter and the
query returns results instead of a validation error. -/
theorem c7_empty_filter_counterexample :
    ((some "" : Option String) ≠ none ∧ "" ≠ "document" ∧ "" ≠ "image") ∧
    getAnnotationsByDocument "d" (some "") none sampleDocDB = .ok [sampleDocRow] := by
  exact ⟨⟨by simp, by decide, by decide⟩, by rfl⟩

/-- C7, amended: a supplied non-empty `annotation_type` filter that is neither
of the two valid values is rejected with a validation error; an empty-string
filter is treated as absent. -/
theorem c7_invalid_type_filter_amended (tv : String) (h0 : tv ≠ "") (h1 : tv ≠ "document")
    (h2 : tv ≠ "image") (document_id : String) (p : Option Int) (db : DB) :
    getAnnotationsByDocument document_id (some tv) p db = .error .validationError := by
  simp only [getAnnotationsByDocument]
  rw [if_pos ⟨h0, h1, h2⟩]

/-- Witness for C7's amended theorem at a concrete bogus filter. -/
theorem c7_invalid_type_filter_amended_ev :
    getAnnotationsByDocument "d" (some "bogus") none sampleDocDB = .error .validationError :=
  c7_invalid_type_filter_amended "bogus" (by decide) (by decide) (by decide) "d" none sampleDocDB

/-- C9: if the upload passes its own validations — the router checks and the
`DocumentCreate` schema bounds (positive size, 100 MB cap, filename length) —
a failing conversion never fails the upload: the handler catches the error,
the document record is kept in the store, and its converted path stays
unset. -/
theorem c9_upload_survives_conversion_failure (file : UploadFileIn) (e : String) (db : DocDB)
    (h1 : file.content_type ∈ allowedFileTypes) (h2 : file.size ≤ maxFileSize)
    (h3 : pyStrip file.filename.data ≠ []) (h4 : 0 < file.size)
    (h5 : file.size ≤ 100 * 1024 * 1024) (h6 : 1 ≤ file.filename.length)
    (h7 : file.filename.length ≤ 255) :
    ∃ doc db2, uploadDocument file (.error e) db = .ok (doc, db2) ∧
      doc.converted_path = none ∧ doc ∈ db2.docs := by
  have hschema : docCreateSchemaOk (uploadDocOf file db) := ⟨⟨h6, h7⟩, ⟨h6, h7⟩, h1, h4, h5⟩
  unfold uploadDocument
  rw [if_neg (not_not_intro h1), if_neg (Nat.not_lt.mpr h2), if_neg h3,
    if_neg (not_not_intro hschema)]
  by_cases ho : file.content_type ∈ officeTypes
  · rw [if_pos ho]
    refine ⟨uploadDocOf file db, docDBAfterCreate file db, rfl, rfl, ?_⟩
    simp [docDBAfterCreate]
  · rw [if_neg ho]
    refine ⟨uploadDocOf file db, docDBAfterCreate file db, rfl, rfl, ?_⟩
    simp [docDBAfterCreate]

/-- Witness for C9 at a concrete office upload with a failing conversion. -/
theorem c9_upload_survives_conversion_failure_ev :
    ∃ doc db2, uploadDocument c9_file (.error "boom") { docs := [], nextId := 0 } = .ok (doc, db2) ∧
      doc.converted_path = none ∧ doc ∈ db2.docs :=
  c9_upload_survives_conversion_failure c9_file "boom" { docs := [], nextId := 0 }
    (by decide) (by decide) (by decide) (by decide) (by decide) (by decide) (by decide)

/-- C2: an update payload that explicitly carries any other-variant field is
rejected with `InvalidOperation` before anything is applied, and the committed
store is unchanged — for document rows any present pixel field, for image
rows any present page or percentage field. -/
theorem c2_other_variant_update_rejected (now aid : Nat) (u v : AnnotationUpdate) (db : DB)
    (row : AnnotationRow) (hv : validateUpdate u = some v)
    (hfind : db.rows.find? (fun r => r.id == aid) = some row) :
    (row.annotation_type = "document" → v.x_pixel ≠ none ∨ v.y_pixel ≠ none →
      updateAnnotationOp now aid u db = .error .invalidOperation ∧
      updateAnnotationRun now aid u db = db) ∧
    (row.annotation_type = "image" → v.page ≠ none ∨ v.x_percent ≠ none ∨ v.y_percent ≠ none →
      updateAnnotationOp now aid u db = .error .invalidOperation ∧
      updateAnnotationRun now aid u db = db) := by
  constructor
  · intro hdoc hpix
    have hop : updateAnnotationOp now aid u db = .error .invalidOperation := by
      simp only [updateAnnotationOp, hv, hfind]
      rw [if_pos ⟨hdoc, hpix⟩]
    exact ⟨hop, by unfold updateAnnotationRun; rw [hop]⟩
  · intro himg hfld
    have hop : updateAnnotationOp now aid u db = .error .invalidOperation := by
      simp only [updateAnnotationOp, hv, hfind]
      rw [if_neg (fun hcon => by rw [himg] at hcon; exact absurd hcon.1 (by decide)),
        if_pos ⟨himg, hfld⟩]
    exact ⟨hop, by unfold updateAnnotationRun; rw [hop]⟩

/-- Witness for C2: a pixel update on a stored document row and a page update
on a stored image row are both rejected and leave the store unchanged. -/
theorem c2_other_variant_update_rejected_ev :
    (updateAnnotationOp 1 0 c2_pixelUpd sampleDocDB = .error .invalidOperation ∧
      updateAnnotationRun 1 0 c2_pixelUpd sampleDocDB = sampleDocDB) ∧
    (updateAnnotationOp 1 0 c2_pageUpd sampleImgDB = .error .invalidOperation ∧
      updateAnnotationRun 1 0 c2_pageUpd sampleImgDB = sampleImgDB) :=
  ⟨(c2_other_variant_update_rejected 1 0 c2_pixelUpd c2_pixelUpd sampleDocDB sampleDocRow
      (by rfl) (by rfl)).1 rfl (Or.inl (by decide)),
   (c2_other_variant_update_rejected 1 0 c2_pageUpd c2_pageUpd sampleImgDB sampleImgRow
      (by rfl) (by rfl)).2 rfl (Or.inl (by decide))⟩

/-- C10: an update that explicitly sets content to null passes the update
schema's validation (the validator lets `None` through), the null is applied
to the row's content field by the service, and the failure that stops it is
the storage layer's NOT NULL constraint at commit, which rolls back and
leaves the store unchanged. -/
theorem c10_null_content_passes_validation (now aid : Nat) (db : DB) (row : AnnotationRow)
    (hfind : db.rows.find? (fun r => r.id == aid) = some row)
    (hc : row.content ≠ none) :
    validateUpdate c10_nullContentUpd = some c10_nullContentUpd ∧
    (applyUpdate row c10_nullContentUpd).content = none ∧
    updateAnnotationOp now aid c10_nullContentUpd db = .error .storageError ∧
    updateAnnotationRun now aid c10_nullContentUpd db = db := by
  have hv : validateUpdate c10_nullContentUpd = some c10_nullContentUpd := by rfl
  have happ : (applyUpdate row c10_nullContentUpd).content = none := by rfl
  have hne : applyUpdate row c10_nullContentUpd ≠ row := by
    intro he
    exact hc ((congrArg AnnotationRow.content he).symm.trans happ)
  have hop : updateAnnotationOp now aid c10_nullContentUpd db = .error .storageError := by
    simp only [updateAnnotationOp, hv, hfind]
    rw [if_neg (by rintro ⟨-, h | h⟩ <;> exact h rfl)]
    rw [if_neg (by rintro ⟨-, h | h | h⟩ <;> exact h rfl)]
    rw [if_neg hne]
    rw [if_neg (fun hok => hok.2 rfl)]
  exact ⟨hv, happ, hop, by unfold updateAnnotationRun; rw [hop]⟩

/-- Witness for C10 on a concrete stored document row. -/
theorem c10_null_content_passes_validation_ev :
    validateUpdate c10_nullContentUpd = some c10_nullContentUpd ∧
    (applyUpdate sampleDocRow c10_nullContentUpd).content = none ∧
    updateAnnotationOp 1 0 c10_nullContentUpd sampleDocDB = .error .storageError ∧
    updateAnnotationRun 1 0 c10_nullContentUpd sampleDocDB = sampleDocDB :=
  c10_null_content_passes_validation 1 0 sampleDocDB sampleDocRow (by rfl) (by decide)

/-- C6, counterexample: an update with an empty payload completes successfully
but emits no UPDATE statement, so `updated_at` is not bumped to the current
time (5) and keeps its old value (0), refuting the unconditional bump. -/
theorem c6_empty_update_counterexample :
    updateAnnotationOp 5 0 c6_emptyUpd sampleDocDB = .ok (sampleDocRow, sampleDocDB) ∧
    sampleDocRow.updated_at = 0 ∧ (0 : Nat) ≠ 5 :=
  ⟨by rfl, rfl, by decide⟩

/-- C6, amended: a successful update applies exactly the explicitly present
fields and never alters `created_at` or `annotation_type`; `updated_at` is
bumped to the current time when the applied fields change the row, and is
left unchanged (together with everything else) when they do not — in
particular for an empty payload. -/
theorem c6_update_frame_amended (now aid : Nat) (u v : AnnotationUpdate) (db db2 : DB)
    (row r : AnnotationRow) (hv : validateUpdate u = some v)
    (hfind : db.rows.find? (fun x => x.id == aid) = some row)
    (hok : updateAnnotationOp now aid u db = .ok (r, db2)) :
    r.created_at = row.created_at ∧ r.annotation_type = row.annotation_type ∧
    (applyUpdate row v = row → r = row ∧ db2 = db) ∧
    (applyUpdate row v ≠ row → r = { applyUpdate row v with updated_at := now }) := by
  simp only [updateAnnotationOp, hv, hfind] at hok
  by_cases h1 : row.annotation_type = "document" ∧ (v.x_pixel ≠ none ∨ v.y_pixel ≠ none)
  · rw [if_pos h1] at hok
    exact Except.noConfusion hok
  rw [if_neg h1] at hok
  by_cases h2 : row.annotation_type = "image" ∧
      (v.page ≠ none ∨ v.x_percent ≠ none ∨ v.y_percent ≠ none)
  · rw [if_pos h2] at hok
    exact Except.noConfusion hok
  rw [if_neg h2] at hok
  by_cases h3 : applyUpdate row v = row
  · rw [if_pos h3] at hok
    simp only [Except.ok.injEq, Prod.mk.injEq] at hok
    obtain ⟨hr, hdb⟩ := hok
    subst hr
    subst hdb
    exact ⟨rfl, rfl, fun _ => ⟨rfl, rfl⟩, fun hne => absurd h3 hne⟩
  · rw [if_neg h3] at hok
    by_cases h4 : rowCommitOk { applyUpdate row v with updated_at := now }
    · rw [if_pos h4] at hok
      simp only [Except.ok.injEq, Prod.mk.injEq] at hok
      obtain ⟨hr, hdb⟩ := hok
      subst hr
      exact ⟨rfl, rfl, fun he => absurd he h3, fun _ => rfl⟩
    · rw [if_neg h4] at hok
      exact Except.noConfusion hok

/-- Witness for C6's amended theorem: a concrete content update keeps
`created_at` and `annotation_type` and bumps `updated_at` to the new time. -/
theorem c6_update_frame_amended_ev :
    c6_expected.created_at = sampleDocRow.created_at ∧
    c6_expected.annotation_type = sampleDocRow.annotation_type ∧
    (applyUpdate sampleDocRow c6_contentUpd = sampleDocRow →
      c6_expected = sampleDocRow ∧ c6_expectedDB = sampleDocDB) ∧
    (applyUpdate sampleDocRow c6_contentUpd ≠ sampleDocRow →
      c6_expected = { applyUpdate sampleDocRow c6_contentUpd with updated_at := 7 }) :=
  c6_update_frame_amended 7 0 c6_contentUpd c6_contentUpd sampleDocDB c6_expectedDB
    sampleDocRow c6_expected (by rfl) (by rfl) (by rfl)

theorem mem_insertByCreatedAt (x a : AnnotationRow) :
    ∀ l : List AnnotationRow, x ∈ insertByCreatedAt a l → x = a ∨ x ∈ l := by
  intro l
  induction l with
  | nil =>
    intro h
    simp [insertByCreatedAt] at h
    exact Or.inl h
  | cons b t ih =>
    intro h
    unfold insertByCreatedAt at h
    by_cases hlt : b.created_at < a.created_at
    · rw [if_pos hlt] at h
      rcases List.mem_cons.mp h with h1 | h2
      · exact Or.inr (List.mem_cons.mpr (Or.inl h1))
      · rcases ih h2 with h3 | h4
        · exact Or.inl h3
        · exact Or.inr (List.mem_cons.mpr (Or.inr h4))
    · rw [if_neg hlt] at h
      rcases List.mem_cons.mp h with h1 | h2
      · exact Or.inl h1
      · exact Or.inr h2

theorem pairwise_insertByCreatedAt (a : AnnotationRow) :
    ∀ l : List AnnotationRow, l.Pairwise (fun x y => x.created_at ≤ y.created_at) →
      (insertByCreatedAt a l).Pairwise (fun x y => x.created_at ≤ y.created_at) := by
  intro l
  induction l with
  | nil =>
    intro _
    simp [insertByCreatedAt]
  | cons b t ih =>
    intro hp
    rw [List.pairwise_cons] at hp
    obtain ⟨hb, ht⟩ := hp
    unfold insertByCreatedAt
    by_cases hlt : b.created_at < a.created_at
    · rw [if_pos hlt, List.pairwise_cons]
      refine ⟨?_, ih ht⟩
      intro y hy
      rcases mem_insertByCreatedAt y a t hy with rfl | hyt
      · exact Nat.le_of_lt hlt
      · exact hb y hyt
    · rw [if_neg hlt, List.pairwise_cons]
      refine ⟨?_, List.pairwise_cons.mpr ⟨hb, ht⟩⟩
      intro y hy
      rcases List.mem_cons.mp hy with rfl | hyt
      · exact Nat.le_of_not_lt hlt
      · exact Nat.le_trans (Nat.le_of_not_lt hlt) (hb y hyt)

theorem pairwise_orderByCreatedAt :
    ∀ l : List AnnotationRow,
      (orderByCreatedAt l).Pairwise (fun x y => x.created_at ≤ y.created_at) := by
  intro l
  induction l with
  | nil => simp [orderByCreatedAt]
  | cons a t ih => exact pairwise_insertByCreatedAt a (orderByCreatedAt t) ih

theorem filter_insertByCreatedAt (t0 : Nat) (a : AnnotationRow) :
    ∀ l : List AnnotationRow,
      (insertByCreatedAt a l).filter (fun r => r.created_at == t0) =
        ((a :: l).filter (fun r => r.created_at == t0)) := by
  intro l
  induction l with
  | nil => rfl
  | cons b t ih =>
    unfold insertByCreatedAt
    by_cases hlt : b.created_at < a.created_at
    · rw [if_pos hlt]
      by_cases ha : a.created_at = t0
      · have hb : ¬ b.created_at = t0 := by omega
        simp [List.filter_cons, ha, hb, ih]
      · simp [List.filter_cons, ha, ih]
    · rw [if_neg hlt]

theorem filter_orderByCreatedAt (t0 : Nat) :
    ∀ l : List AnnotationRow,
      (orderByCreatedAt l).filter (fun r => r.created_at == t0) =
        l.filter (fun r => r.created_at == t0) := by
  intro l
  induction l with
  | nil => rfl
  | cons a t ih =>
    show (insertByCreatedAt a (orderByCreatedAt t)).filter _ = _
    rw [filter_insertByCreatedAt]
    simp only [List.filter_cons, ih]

/-- C8: a successful query returns the filtered rows sorted by `created_at`
ascending; rows with equal `created_at` keep their arrival order (the
per-timestamp slice of the result equals the per-timestamp slice of the
filtered store), and repeating the query without intervening writes returns
the same ordered list. -/
theorem c8_query_ordering (document_id : String) (t : Option String) (p : Option Int)
    (db : DB) (l : List AnnotationRow)
    (h : getAnnotationsByDocument document_id t p db = .ok l) :
    l.Pairwise (fun x y => x.created_at ≤ y.created_at) ∧
    (∀ t0, l.filter (fun r => r.created_at == t0) =
      (queryFilter document_id t p db).filter (fun r => r.created_at == t0)) ∧
    getAnnotationsByDocument document_id t p db = .ok l := by
  have hl : l = orderByCreatedAt (queryFilter document_id t p db) := by
    cases t with
    | none =>
      simp only [getAnnotationsByDocument] at h
      exact (Except.ok.inj h).symm
    | some tv =>
      simp only [getAnnotationsByDocument] at h
      by_cases hc : tv ≠ "" ∧ tv ≠ "document" ∧ tv ≠ "image"
      · rw [if_pos hc] at h
        exact Except.noConfusion h
      · rw [if_neg hc] at h
        exact (Except.ok.inj h).symm
  subst hl
  exact ⟨pairwise_orderByCreatedAt _, fun t0 => filter_orderByCreatedAt t0 _, h⟩

/-- Witness for C8 on a store with a `created_at` tie: the result keeps the
two tied rows in arrival order. -/
theorem c8_query_ordering_ev :
    ([c8_rowA, c8_rowB].Pairwise (fun x y => x.created_at ≤ y.created_at)) ∧
    (∀ t0, [c8_rowA, c8_rowB].filter (fun r => r.created_at == t0) =
      (queryFilter "d" none none c8_db).filter (fun r => r.created_at == t0)) ∧
    getAnnotationsByDocument "d" none none c8_db = .ok [c8_rowA, c8_rowB] :=
  c8_query_ordering "d" none none c8_db [c8_rowA, c8_rowB] (by rfl)

theorem variantOk_docRowOf (now : Nat) (db : DB) (v : DocumentAnnotationCreate) :
    variantOk (docRowOf now db v) :=
  Or.inl ⟨rfl, by simp [docRowOf], by simp [docRowOf], by simp [docRowOf], rfl, rfl⟩

theorem variantOk_imgRowOf (now : Nat) (db : DB) (v : ImageAnnotationCreate) :
    variantOk (imgRowOf now db v) :=
  Or.inr ⟨rfl, by simp [imgRowOf], by simp [imgRowOf], rfl, rfl, rfl⟩

theorem variantOk_update_newRow (now : Nat) (row : AnnotationRow) (v : AnnotationUpdate)
    (hrow : variantOk row)
    (h1 : ¬(row.annotation_type = "document" ∧ (v.x_pixel ≠ none ∨ v.y_pixel ≠ none)))
    (h2 : ¬(row.annotation_type = "image" ∧
      (v.page ≠ none ∨ v.x_percent ≠ none ∨ v.y_percent ≠ none)))
    (h4 : rowCommitOk { applyUpdate row v with updated_at := now }) :
    variantOk { applyUpdate row v with updated_at := now } := by
  rcases hrow with ⟨hdoc, hpage, hxp, hyp, hxpx, hypx⟩ | ⟨himg, hxpx, hypx, hpage, hxp, hyp⟩
  · have hvx : v.x_pixel = none := by
      by_contra hne
      exact h1 ⟨hdoc, Or.inl hne⟩
    have hvy : v.y_pixel = none := by
      by_contra hne
      exact h1 ⟨hdoc, Or.inr hne⟩
    have hnx : ({ applyUpdate row v with updated_at := now }).x_pixel = none := by
      simp [applyUpdate, hvx, hxpx]
    have hny : ({ applyUpdate row v with updated_at := now }).y_pixel = none := by
      simp [applyUpdate, hvy, hypx]
    rcases h4.1 with ⟨-, hp, hx, hy⟩ | ⟨hti, -, -⟩
    · exact Or.inl ⟨hdoc, hp, hx, hy, hnx, hny⟩
    · have hti2 : row.annotation_type = "image" := hti
      rw [hdoc] at hti2
      exact absurd hti2 (by decide)
  · have hvp : v.page = none := by
      by_contra hne
      exact h2 ⟨himg, Or.inl hne⟩
    have hvx : v.x_percent = none := by
      by_contra hne
      exact h2 ⟨himg, Or.inr (Or.inl hne)⟩
    have hvy : v.y_percent = none := by
      by_contra hne
      exact h2 ⟨himg, Or.inr (Or.inr hne)⟩
    have hnp : ({ applyUpdate row v with updated_at := now }).page = none := by
      simp [applyUpdate, hvp, hpage]
    have hnx : ({ applyUpdate row v with updated_at := now }).x_percent = none := by
      simp [applyUpdate, hvx, hxp]
    have hny : ({ applyUpdate row v with updated_at := now }).y_percent = none := by
      simp [applyUpdate, hvy, hyp]
    rcases h4.1 with ⟨htd, -, -, -⟩ | ⟨-, hx, hy⟩
    · have htd2 : row.annotation_type = "document" := htd
      rw [himg] at htd2
      exact absurd htd2 (by decide)
    · exact Or.inr ⟨himg, hx, hy, hnp, hnx, hny⟩

/-- C1: the variant invariant — a document row has page and both percentages
populated with the pixel columns null, an image row has both pixel columns
populated with page and percentages null — holds for every stored row after
any create or update operation that completes successfully, given it held
before.  The service-layer variant checks and the table CHECK constraint
together preserve it. -/
theorem c1_variant_invariant_preserved (now : Nat) (db : DB) (hInv : dbInv db) :
    (∀ c r db2, createAnnotationDoc now c db = .ok (r, db2) → dbInv db2) ∧
    (∀ c r db2, createAnnotationImg now c db = .ok (r, db2) → dbInv db2) ∧
    (∀ aid u r db2, updateAnnotationOp now aid u db = .ok (r, db2) → dbInv db2) := by
  refine ⟨?_, ?_, ?_⟩
  · intro c r db2 hok
    cases hval : validateDocumentCreate c with
    | none =>
      simp only [createAnnotationDoc, hval] at hok
      exact Except.noConfusion hok
    | some v =>
      rw [createAnnotationDoc_eq now db hval] at hok
      simp only [Except.ok.injEq, Prod.mk.injEq] at hok
      obtain ⟨-, hdb⟩ := hok
      subst hdb
      intro x hx
      simp only [insertRow] at hx
      rcases List.mem_append.mp hx with hold | hnew
      · exact hInv x hold
      · rw [List.mem_singleton.mp hnew]
        exact variantOk_docRowOf now db v
  · intro c r db2 hok
    cases hval : validateImageCreate c with
    | none =>
      simp only [createAnnotationImg, hval] at hok
      exact Except.noConfusion hok
    | some v =>
      rw [createAnnotationImg_eq now db hval] at hok
      simp only [Except.ok.injEq, Prod.mk.injEq] at hok
      obtain ⟨-, hdb⟩ := hok
      subst hdb
      intro x hx
      simp only [insertRow] at hx
      rcases List.mem_append.mp hx with hold | hnew
      · exact hInv x hold
      · rw [List.mem_singleton.mp hnew]
        exact variantOk_imgRowOf now db v
  · intro aid u r db2 hok
    cases hv : validateUpdate u with
    | none =>
      simp only [updateAnnotationOp, hv] at hok
      exact Except.noConfusion hok
    | some v =>
      cases hfind : db.rows.find? (fun x => x.id == aid) with
      | none =>
        simp only [updateAnnotationOp, hv, hfind] at hok
        exact Except.noConfusion hok
      | some row =>
        simp only [updateAnnotationOp, hv, hfind] at hok
        by_cases h1 : row.annotation_type = "document" ∧ (v.x_pixel ≠ none ∨ v.y_pixel ≠ none)
        · rw [if_pos h1] at hok
          exact Except.noConfusion hok
        rw [if_neg h1] at hok
        by_cases h2 : row.annotation_type = "image" ∧
            (v.page ≠ none ∨ v.x_percent ≠ none ∨ v.y_percent ≠ none)
        · rw [if_pos h2] at hok
          exact Except.noConfusion hok
        rw [if_neg h2] at hok
        by_cases h3 : applyUpdate row v = row
        · rw [if_pos h3] at hok
          simp only [Except.ok.injEq, Prod.mk.injEq] at hok
          obtain ⟨-, hdb⟩ := hok
          subst hdb
          exact hInv
        · rw [if_neg h3] at hok
          by_cases h4 : rowCommitOk { applyUpdate row v with updated_at := now }
          · rw [if_pos h4] at hok
            simp only [Except.ok.injEq, Prod.mk.injEq] at hok
            obtain ⟨-, hdb⟩ := hok
            subst hdb
            intro x hx
            rcases List.mem_map.mp hx with ⟨r0, hr0, hfx⟩
            by_cases hid : (r0.id == aid) = true
            · rw [if_pos hid] at hfx
              rw [← hfx]
              exact variantOk_update_newRow now row v
                (hInv row (List.mem_of_find?_eq_some hfind)) h1 h2 h4
            · rw [if_neg hid] at hfx
              rw [← hfx]
              exact hInv r0 hr0
          · rw [if_neg h4] at hok
            exact Except.noConfusion hok

/-- Witness for C1: the preservation theorem applied to a concrete store that
satisfies the invariant. -/
theorem c1_variant_invariant_preserved_ev :
    (∀ c r db2, createAnnotationDoc 1 c sampleDocDB = .ok (r, db2) → dbInv db2) ∧
    (∀ c r db2, createAnnotationImg 1 c sampleDocDB = .ok (r, db2) → dbInv db2) ∧
    (∀ aid u r db2, updateAnnotationOp 1 aid u sampleDocDB = .ok (r, db2) → dbInv db2) :=
  c1_variant_invariant_preserved 1 sampleDocDB (by decide)

end PdfTask
